import Mathlib

/-!
Shallow embedding of the migration orchestrator core of the
MigrationX backend (`src/migration/apigee_x_migrator.py` and
`src/migration/dependency_analyzer.py`), together with theorems
settling the frozen specification claims.

Modelling conventions:
* A Python migration-result dict becomes the structure `MigResult`;
  the optional `deployment_status` key is an `Option String`.
* Effects (file reads, `json.load`, `requests` calls, gateway calls)
  are abstracted into *environment* structures whose fields are
  `Except String _` values: `.error e` models the effect raising an
  exception whose `str(e)` is `e`; `.ok v` models it returning `v`.
* Each migration method's `try:` block is translated as a
  `..._body : ... → Except String MigResult` function, and the method
  itself pattern-matches on the body, producing the `status_code = 500`
  fallback dict of the `except Exception` clause on `.error`.
* Since the retry wrapper may call the (network-dependent) attempt
  function several times with the same arguments and observe different
  answers, an attempt function is modelled as `Nat → MigResult`,
  indexed by the 1-based attempt number.
* Python `str.replace` is modelled by `pyReplace` below (all
  non-overlapping occurrences, scanned left to right; the patterns
  used by the code are the non-empty literals ".json" / ".zip"), and
  `int(...)` applied
  to the revision strings is modelled by `parseIntString` below
  (optional minus sign followed by decimal digits; anything else
  raises, i.e. yields `none`).
-/

namespace MigrationX

/-- The per-resource migration-result dictionary produced by every
migration and deployment method of `ApigeeXMigrator`. -/
structure MigResult where
  resource_type : String
  resource_name : String
  status_code : Nat
  success : Bool
  message : String
  deployment_status : Option String := none
deriving Repr, DecidableEq

/-- The `summary` part of the dictionary returned by `migrate_all`. -/
structure Summary where
  total : Nat
  success : Nat
  failed : Nat
deriving Repr, DecidableEq

/-- The identity of a result: its `resource_type` and `resource_name`
fields, the pair the spec calls a ResourceIdentity. -/
def MigResult.identity (r : MigResult) : String × String :=
  (r.resource_type, r.resource_name)

/-- The suffix `migrate_with_retry` appends to the message of the last
failing result when retries are exhausted:
`" (failed after {retries} retries)"`. -/
def retrySuffix (retries : Nat) : String :=
  " (failed after " ++ toString retries ++ " retries)"

/-- A failing result annotated with the retry-exhaustion suffix. -/
def annotateRetries (r : MigResult) (retries : Nat) : MigResult :=
  { r with message := r.message ++ retrySuffix retries }

/-- The loop body of `migrate_with_retry`: Python's
`for attempt in range(1, retries + 1)` with the early returns.  `fuel`
is the number of loop iterations still available (initially `retries`);
the second component counts how many times the attempt function was
invoked.  Falling off the loop (only possible when `retries = 0`, an
empty `range`) returns Python `None`, modelled as `none`. -/
def retryGo (func : Nat → MigResult) (retries : Nat) :
    Nat → Nat → Option MigResult × Nat
  | _, 0 => (none, 0)
  | attempt, fuel + 1 =>
    let result := func attempt
    if result.success then (some result, 1)
    else if attempt = retries then (some (annotateRetries result retries), 1)
    else
      let rest := retryGo func retries (attempt + 1) fuel
      (rest.1, rest.2 + 1)

/-- `ApigeeXMigrator.migrate_with_retry(func, *args, retries=3, delay=1.0)`:
calls `func` up to `retries` times, returning the first successful
result, or the last failing result with its message annotated by
`retrySuffix`.  Returns `none` (Python `None`) when `retries = 0`. -/
def migrate_with_retry (func : Nat → MigResult) (retries : Nat := 3) :
    Option MigResult :=
  (retryGo func retries 1 retries).1

/-- How many times `migrate_with_retry` invokes the attempt function. -/
def migrate_with_retry_calls (func : Nat → MigResult) (retries : Nat := 3) :
    Nat :=
  (retryGo func retries 1 retries).2

/-- The `except Exception as e` fallback dict shared (up to the type
string) by every migration method:
`{resource_type, resource_name, status_code: 500, success: False,
message: f"Error: {str(e)}"}`. -/
def errorResult (ty name e : String) : MigResult :=
  { resource_type := ty, resource_name := name, status_code := 500,
    success := false, message := "Error: " ++ e }

/-- Does `pat` start the character list, and if so what follows it? -/
def dropPat : List Char → List Char → Option (List Char)
  | [], s => some s
  | _ :: _, [] => none
  | p :: ps, c :: cs => if p = c then dropPat ps cs else none

/-- One left-to-right replacement scan; `fuel` bounds the number of
steps (one input character or one pattern occurrence is consumed per
step, so `s.length` suffices). -/
def replaceGo (pat rep : List Char) : Nat → List Char → List Char
  | 0, rest => rest
  | _ + 1, [] => []
  | fuel + 1, c :: cs =>
    match pat, dropPat pat (c :: cs) with
    | _ :: _, some rest => rep ++ replaceGo pat rep fuel rest
    | _, _ => c :: replaceGo pat rep fuel cs

/-- Python `s.replace(pat, rep)` for a non-empty `pat`: every
non-overlapping occurrence, scanned left to right, is replaced. -/
def pyReplace (s pat rep : String) : String :=
  ⟨replaceGo pat.data rep.data s.data.length s.data⟩

/-- Effects performed by `migrate_target_server`:
`resource_exists("targetserver", ...)` (a `requests.get`),
`open`/`json.load` of the target-server file (its parsed content is
opaque to the result, so only success/failure is recorded), and the
`MigrateResources.Target_Servers` gateway call returning
`(status_code, response_text)`. -/
structure TSEnv where
  resource_exists : String → String → Except String Bool
  file_load : Except String Unit
  gateway : Except String (Nat × String)

/-- The `try:` block of `ApigeeXMigrator.migrate_target_server`. -/
def migrate_target_server_body (env : TSEnv) (ts_name : String) :
    Except String MigResult := do
  let ex ← env.resource_exists "targetserver" (pyReplace ts_name ".json" "")
  if ex then
    return { resource_type := "targetserver", resource_name := ts_name,
             status_code := 409, success := false,
             message := "Target Server '" ++ ts_name ++ "' already exists" }
  let _ ← env.file_load
  let (status_code, response_text) ← env.gateway
  return { resource_type := "targetserver", resource_name := ts_name,
           status_code := status_code, success := status_code == 200,
           message := if status_code == 200
             then "Target Server migrated successfully"
             else "Migration failed: " ++ response_text }

/-- `ApigeeXMigrator.migrate_target_server(ts_name)`. -/
def migrate_target_server (env : TSEnv) (ts_name : String) : MigResult :=
  match migrate_target_server_body env ts_name with
  | .ok r => r
  | .error e => errorResult "targetserver" ts_name e

/-- Effects performed by `migrate_kvm`: the existence check, the file
load yielding `(data['name'], str(data['encrypted']))` (a `KeyError`
on a missing key is an exception like any other), and the env-level /
org-level `MigrateResources.Kvms_*` gateway calls. -/
structure KvmEnv where
  resource_exists : String → String → Except String Bool
  file_load : Except String (String × String)
  gateway_env : Except String (Nat × String)
  gateway_org : Except String (Nat × String)

/-- The `try:` block of `ApigeeXMigrator.migrate_kvm`. -/
def migrate_kvm_body (env : KvmEnv) (kvm_name scope : String) :
    Except String MigResult := do
  let kvm_base_name := pyReplace kvm_name ".json" ""
  let ex ← env.resource_exists "kvm" kvm_base_name
  if ex then
    return { resource_type := "kvm", resource_name := kvm_name,
             status_code := 409, success := false,
             message := "KVM '" ++ kvm_name ++ "' already exists" }
  let _ ← env.file_load
  let (status_code, response_text) ←
    if scope = "env" then env.gateway_env else env.gateway_org
  return { resource_type := "kvm", resource_name := kvm_name,
           status_code := status_code, success := status_code == 201,
           message := if status_code == 201
             then "KVM migrated successfully"
             else "Migration failed: " ++ response_text }

/-- `ApigeeXMigrator.migrate_kvm(kvm_name, scope="env")`. -/
def migrate_kvm (env : KvmEnv) (kvm_name : String) (scope : String := "env") :
    MigResult :=
  match migrate_kvm_body env kvm_name scope with
  | .ok r => r
  | .error e => errorResult "kvm" kvm_name e

/-- Effects performed by `migrate_developer`: the file load yielding
`data["email"]` (the only field of the record the result can observe;
a `KeyError` is an exception), the existence check by email, and the
`MigrateResources.Developers` gateway call. -/
structure DevEnv where
  file_load : Except String String
  resource_exists : String → String → Except String Bool
  gateway : Except String (Nat × String)

/-- The `try:` block of `ApigeeXMigrator.migrate_developer`.  Note the
file is loaded *before* the existence check, which uses the record's
email. -/
def migrate_developer_body (env : DevEnv) (dev_filename : String) :
    Except String MigResult := do
  let email ← env.file_load
  let ex ← env.resource_exists "developer" email
  if ex then
    return { resource_type := "developer", resource_name := dev_filename,
             status_code := 409, success := false,
             message := "Developer '" ++ email ++ "' already exists" }
  let (status_code, response_text) ← env.gateway
  return { resource_type := "developer", resource_name := dev_filename,
           status_code := status_code, success := status_code == 201,
           message := if status_code == 201
             then "Developer migrated successfully"
             else "Migration failed: " ++ response_text }

/-- `ApigeeXMigrator.migrate_developer(dev_filename)`. -/
def migrate_developer (env : DevEnv) (dev_filename : String) : MigResult :=
  match migrate_developer_body env dev_filename with
  | .ok r => r
  | .error e => errorResult "developer" dev_filename e

/-- Effects performed by `migrate_product`: the file load yielding
`data["name"]`, the existence check by product name, the
`Rewrite_product_file` in-place rewrite, and the `Migrate_product`
gateway call. -/
structure ProdEnv where
  file_load : Except String String
  resource_exists : String → String → Except String Bool
  rewrite_file : Except String Unit
  gateway : Except String (Nat × String)

/-- The `try:` block of `ApigeeXMigrator.migrate_product`. -/
def migrate_product_body (env : ProdEnv) (product_filename : String) :
    Except String MigResult := do
  let name ← env.file_load
  let ex ← env.resource_exists "apiproduct" name
  if ex then
    return { resource_type := "apiproduct", resource_name := product_filename,
             status_code := 409, success := false,
             message := "Product '" ++ name ++ "' already exists" }
  let _ ← env.rewrite_file
  let (status_code, response_text) ← env.gateway
  return { resource_type := "apiproduct", resource_name := product_filename,
           status_code := status_code, success := status_code == 201,
           message := if status_code == 201
             then "Product migrated successfully"
             else "Migration failed: " ++ response_text }

/-- `ApigeeXMigrator.migrate_product(product_filename)`. -/
def migrate_product (env : ProdEnv) (product_filename : String) : MigResult :=
  match migrate_product_body env product_filename with
  | .ok r => r
  | .error e => errorResult "apiproduct" product_filename e

/-- One developer record as seen by `migrate_app`'s lookup loop:
`dev_data.get('developerId')` and `dev_data.get('email')` (both
`None`-able, hence `Option`). -/
structure DevRecord where
  developerId : Option String
  email : Option String
deriving Repr, DecidableEq

/-- The app file's observable content after
`data.get('name', '')` / `data.get('developerId', '')`. -/
structure AppData where
  name : String
  developerId : String
deriving Repr, DecidableEq

/-- Effects performed by `migrate_app`: the app-file load, the scan of
the developers directory (the whole `os.listdir` loop's reads; a
failure of any read is an exception), the `requests.get` existence
check returning a status code, and the `Migrate_app` gateway call (the
payload construction feeding it is not observable in the result). -/
structure AppEnv where
  file_load : Except String AppData
  dev_records : Except String (List (Except String DevRecord))
  app_check : Except String Nat
  gateway : Except String (Nat × String)

/-- The developer-lookup loop of `migrate_app`: the developer files
are opened one by one, in directory order (each open/`json.load` can
raise, which aborts the whole scan); the first record whose
`developerId` equals the app's `developerId` supplies
`developer_email` and `break` stops the scan, so later files are not
even opened. -/
def scanDevs (developer_id : String) :
    List (Except String DevRecord) → Except String (Option String)
  | [] => .ok none
  | .error e :: _ => .error e
  | .ok d :: ds =>
    if d.developerId = some developer_id then .ok d.email
    else scanDevs developer_id ds

/-- Python truthiness of the `developer_email` variable:
`if not developer_email` fires on `None` and on the empty string. -/
def emailTruthy : Option String → Bool
  | none => false
  | some e => e ≠ ""

/-- The `try:` block of `ApigeeXMigrator.migrate_app`. -/
def migrate_app_body (env : AppEnv) (app_filename : String) :
    Except String MigResult := do
  let data ← env.file_load
  let recs ← env.dev_records
  let developer_email ← scanDevs data.developerId recs
  if ¬ emailTruthy developer_email then
    return { resource_type := "app", resource_name := app_filename,
             status_code := 400, success := false,
             message := "Developer not found for app " ++ data.name }
  let check_status ← env.app_check
  if check_status = 200 then
    return { resource_type := "app", resource_name := app_filename,
             status_code := 409, success := false,
             message := "App '" ++ data.name ++ "' already exists" }
  let (status_code, response_text) ← env.gateway
  return { resource_type := "app", resource_name := app_filename,
           status_code := status_code, success := status_code == 201,
           message := if status_code == 201
             then "App migrated successfully"
             else "Migration failed: " ++ response_text }

/-- `ApigeeXMigrator.migrate_app(app_filename)`. -/
def migrate_app (env : AppEnv) (app_filename : String) : MigResult :=
  match migrate_app_body env app_filename with
  | .ok r => r
  | .error e => errorResult "app" app_filename e

/-- Effects of a deployment (`deploy_proxy` / `deploy_sharedflow`):
the migrator's configured environment name, the revision-listing
`requests.get` + `response.json()` of `_get_latest_revision` (any
exception there is swallowed by its own `try`, so the error payload is
irrelevant), and the deployment `requests.post`. -/
structure DeployEnv where
  env_name : String
  revisions_response : Except Unit (Nat × List String)
  post_response : Except String (Nat × String)

/-- The numeric value of a decimal digit, per Python `int()`. -/
def digitVal (c : Char) : Option Nat :=
  if c.isDigit then some (c.toNat - 48) else none

/-- A non-empty all-digit character sequence as a number. -/
def parseDigits : List Char → Option Nat
  | [] => none
  | cs => cs.foldlM (fun acc c => (digitVal c).map (fun d => acc * 10 + d)) 0

/-- Python `int(s)` on a canonical decimal string: an optional minus
sign followed by at least one digit; `none` models the `ValueError`
raised on anything else. -/
def parseIntString (s : String) : Option Int :=
  match s.data with
  | Char.ofNat 45 :: cs => (parseDigits cs).map (fun n => -(n : Int))
  | cs => (parseDigits cs).map (fun n => (n : Int))

/-- `max(int(rev) for rev in revisions)` as an `Option`: `none` models
the `ValueError` on an empty sequence or an unparsable revision string
(either exception is caught by `_get_latest_revision`). -/
def maxRevision (revisions : List String) : Option Int :=
  match revisions.mapM parseIntString with
  | none => none
  | some [] => none
  | some (i :: is) => some (is.foldl max i)

/-- `ApigeeXMigrator._get_latest_revision(resource_name, resource_type)`:
the highest integer revision as a string when the listing succeeds
with status 200, `"1"` otherwise (non-200, or any exception). -/
def get_latest_revision (env : DeployEnv) : String :=
  match env.revisions_response with
  | .error _ => "1"
  | .ok (status, revisions) =>
    if status = 200 then
      match maxRevision revisions with
      | some m => toString m
      | none => "1"
    else "1"

/-- The shared body of `deploy_proxy` and `deploy_sharedflow`,
parameterised by the result-dict strings that differ between the two
(`resource_type` and the success message).  `revision == "1"` is
treated as unspecified and replaced by `_get_latest_revision`'s
answer; the deployed revision is visible in `resource_name`
(`f"{name} (rev {revision})"`). -/
def deployRun (ty okMsg : String) (env : DeployEnv) (name revision : String) :
    MigResult :=
  let revision := if revision = "1" then get_latest_revision env else revision
  match env.post_response with
  | .error e =>
    { resource_type := ty, resource_name := name, status_code := 500,
      success := false, message := "Deployment error: " ++ e }
  | .ok (status, text) =>
    { resource_type := ty,
      resource_name := name ++ " (rev " ++ revision ++ ")",
      status_code := status, success := status == 200,
      message := if status == 200
        then okMsg ++ env.env_name
        else "Deployment failed: " ++ text }

/-- `ApigeeXMigrator.deploy_proxy(proxy_name, revision="1")`. -/
def deploy_proxy (env : DeployEnv) (proxy_name : String)
    (revision : String := "1") : MigResult :=
  deployRun "proxy_deployment" "Proxy deployed successfully to "
    env proxy_name revision

/-- `ApigeeXMigrator.deploy_sharedflow(sf_name, revision="1")`. -/
def deploy_sharedflow (env : DeployEnv) (sf_name : String)
    (revision : String := "1") : MigResult :=
  deployRun "sharedflow_deployment" "Shared flow deployed successfully to "
    env sf_name revision

/-- Effects performed by `migrate_proxy`: the existence check, the
`MigrateResources.Proxies` import call, and the nested deployment's
effects (`deploy_proxy` never raises, so it contributes no error to
the enclosing `try`). -/
structure ProxyEnv where
  resource_exists : String → String → Except String Bool
  gateway : Except String (Nat × String)
  deploy : DeployEnv

/-- The post-import deployment step shared by `migrate_proxy` and
`migrate_sharedflow`: on a successful import with
`deploy_after_migration=True`, run the deployment and fold its outcome
into the message and the `deployment_status` key, leaving `success`
and `status_code` untouched. -/
def attachDeployment (result deployment_result : MigResult) : MigResult :=
  if deployment_result.success then
    { result with
      message := result.message ++ " and deployed successfully",
      deployment_status := some "deployed" }
  else
    { result with
      message := result.message ++ " but deployment failed: "
        ++ deployment_result.message,
      deployment_status := some "failed" }

/-- The `try:` block of `ApigeeXMigrator.migrate_proxy`. -/
def migrate_proxy_body (env : ProxyEnv) (proxy_name : String)
    (deploy_after_migration : Bool) : Except String MigResult := do
  let ex ← env.resource_exists "proxy" proxy_name
  if ex then
    return { resource_type := "proxy", resource_name := proxy_name,
             status_code := 409, success := false,
             message := "Proxy '" ++ proxy_name ++ "' already exists" }
  let (status_code, response_text) ← env.gateway
  let result : MigResult :=
    { resource_type := "proxy", resource_name := proxy_name,
      status_code := status_code, success := status_code == 200,
      message := if status_code == 200
        then "Proxy migrated successfully"
        else "Migration failed: " ++ response_text }
  if result.success ∧ deploy_after_migration then
    return attachDeployment result (deploy_proxy env.deploy proxy_name)
  return result

/-- `ApigeeXMigrator.migrate_proxy(proxy_name, deploy_after_migration=False)`. -/
def migrate_proxy (env : ProxyEnv) (proxy_name : String)
    (deploy_after_migration : Bool := false) : MigResult :=
  match migrate_proxy_body env proxy_name deploy_after_migration with
  | .ok r => r
  | .error e => errorResult "proxy" proxy_name e

/-- Effects performed by `migrate_sharedflow`, mirroring `ProxyEnv`. -/
structure SfEnv where
  resource_exists : String → String → Except String Bool
  gateway : Except String (Nat × String)
  deploy : DeployEnv

/-- The `try:` block of `ApigeeXMigrator.migrate_sharedflow`. -/
def migrate_sharedflow_body (env : SfEnv) (sf_name : String)
    (deploy_after_migration : Bool) : Except String MigResult := do
  let ex ← env.resource_exists "sharedflow" sf_name
  if ex then
    return { resource_type := "sharedflow", resource_name := sf_name,
             status_code := 409, success := false,
             message := "Shared Flow '" ++ sf_name ++ "' already exists" }
  let (status_code, response_text) ← env.gateway
  let result : MigResult :=
    { resource_type := "sharedflow", resource_name := sf_name,
      status_code := status_code, success := status_code == 200,
      message := if status_code == 200
        then "Shared Flow migrated successfully"
        else "Migration failed: " ++ response_text }
  if result.success ∧ deploy_after_migration then
    return attachDeployment result (deploy_sharedflow env.deploy sf_name)
  return result

/-- `ApigeeXMigrator.migrate_sharedflow(sf_name, deploy_after_migration=False)`. -/
def migrate_sharedflow (env : SfEnv) (sf_name : String)
    (deploy_after_migration : Bool := false) : MigResult :=
  match migrate_sharedflow_body env sf_name deploy_after_migration with
  | .ok r => r
  | .error e => errorResult "sharedflow" sf_name e

/-- `DependencyAnalyzer.get_migration_order(dependencies)`
(`src/migration/dependency_analyzer.py`): ignores its `dependencies`
argument entirely and returns a hard-coded category list.  The input
dictionary is modelled as an arbitrary association list. -/
def get_migration_order (_dependencies : List (String × List (String × List String))) :
    List String :=
  ["target_servers", "kvms", "shared_flows", "proxies",
   "api_products", "developers", "apps"]

/-- `migrate_with_retry` specialised to the default `retries=3`, the
only way `migrate_all` invokes it, unfolded to the three concrete
attempts so the result is total (never Python `None`); the equivalence
with the general model is proved below (`migrate_with_retry_three`). -/
def retry3 (func : Nat → MigResult) : MigResult :=
  let r1 := func 1
  if r1.success then r1
  else
    let r2 := func 2
    if r2.success then r2
    else
      let r3 := func 3
      if r3.success then r3 else annotateRetries r3 3

/-- The inputs of one `migrate_all` run: the directory listings each
category block iterates over (`os.listdir` of the respective
`data_edge` sub-directory; the apps directory may be absent), plus,
for every file of every category, the per-attempt effect environment
its migration function runs against (indexed by the 1-based attempt
number, since the retry wrapper re-runs the function and the outside
world may answer differently each time). -/
structure World where
  tsFiles : List String
  kvmEnvFiles : List String
  kvmOrgFiles : List String
  devFiles : List String
  appDirExists : Bool
  appFiles : List String
  prodFiles : List String
  proxyFiles : List String
  sfFiles : List String
  tsEnv : String → Nat → TSEnv
  kvmEnvE : String → Nat → KvmEnv
  kvmOrgE : String → Nat → KvmEnv
  devEnv : String → Nat → DevEnv
  appEnv : String → Nat → AppEnv
  prodEnv : String → Nat → ProdEnv
  proxyEnv : String → Nat → ProxyEnv
  sfEnv : String → Nat → SfEnv

/-- The task list `migrate_all` builds, in submission order
(`tasks.append` order in the source): target servers, env-level KVMs,
org-level KVMs, developers, apps (only if the directory exists),
products, proxies, shared flows.  `asyncio.gather(*tasks)` returns one
result per task in this same order, so the gathered `results` list is
exactly this list. -/
def migrate_all_results (w : World) : List MigResult :=
  (w.tsFiles.map fun f =>
    retry3 fun n => migrate_target_server (w.tsEnv f n) f)
  ++ (w.kvmEnvFiles.map fun f =>
    retry3 fun n => migrate_kvm (w.kvmEnvE f n) f "env")
  ++ (w.kvmOrgFiles.map fun f =>
    retry3 fun n => migrate_kvm (w.kvmOrgE f n) f "org")
  ++ (w.devFiles.map fun f =>
    retry3 fun n => migrate_developer (w.devEnv f n) f)
  ++ (if w.appDirExists then
      w.appFiles.map fun f =>
        retry3 fun n => migrate_app (w.appEnv f n) f
    else [])
  ++ (w.prodFiles.map fun f =>
    retry3 fun n => migrate_product (w.prodEnv f n) f)
  ++ (w.proxyFiles.map fun f =>
    retry3 fun n => migrate_proxy (w.proxyEnv f n) (pyReplace f ".zip" "") false)
  ++ (w.sfFiles.map fun f =>
    retry3 fun n => migrate_sharedflow (w.sfEnv f n) (pyReplace f ".zip" "") false)

/-- `ApigeeXMigrator.migrate_all()`: the gathered result list plus the
summary dict `{total: len(results), success: sum(r["success"]),
failed: sum(not r["success"])}`. -/
def migrate_all (w : World) : Summary × List MigResult :=
  let results := migrate_all_results w
  ({ total := results.length,
     success := results.countP (fun r => r.success),
     failed := results.countP (fun r => !r.success) },
   results)

/-- The resource identities `migrate_all` submits, one per scheduled
task, in submission order: the pair of the `resource_type` the
category's migration function stamps on its results and the name
argument passed to it (for proxies and shared flows, the file name
with `".zip"` stripped). -/
def submittedIdentities (w : World) : List (String × String) :=
  (w.tsFiles.map fun f => ("targetserver", f))
  ++ (w.kvmEnvFiles.map fun f => ("kvm", f))
  ++ (w.kvmOrgFiles.map fun f => ("kvm", f))
  ++ (w.devFiles.map fun f => ("developer", f))
  ++ (if w.appDirExists then w.appFiles.map fun f => ("app", f) else [])
  ++ (w.prodFiles.map fun f => ("apiproduct", f))
  ++ (w.proxyFiles.map fun f => ("proxy", pyReplace f ".zip" ""))
  ++ (w.sfFiles.map fun f => ("sharedflow", pyReplace f ".zip" ""))

/-- Resolver category names versus the `resource_type` strings the
migration functions stamp on results. -/
def categoryResultType : String → String
  | "target_servers" => "targetserver"
  | "kvms" => "kvm"
  | "shared_flows" => "sharedflow"
  | "proxies" => "proxy"
  | "api_products" => "apiproduct"
  | "developers" => "developer"
  | "apps" => "app"
  | _ => ""

/-! ### Concrete environments and worlds used as test inputs -/

/-- A target-server environment in which every effect raises. -/
def tsEnvDown : TSEnv :=
  { resource_exists := fun _ _ => .error "connection refused",
    file_load := .error "connection refused",
    gateway := .error "connection refused" }

/-- A KVM environment in which every effect raises. -/
def kvmEnvDown : KvmEnv :=
  { resource_exists := fun _ _ => .error "connection refused",
    file_load := .error "connection refused",
    gateway_env := .error "connection refused",
    gateway_org := .error "connection refused" }

/-- A developer environment in which every effect raises. -/
def devEnvDown : DevEnv :=
  { file_load := .error "connection refused",
    resource_exists := fun _ _ => .error "connection refused",
    gateway := .error "connection refused" }

/-- A product environment in which every effect raises. -/
def prodEnvDown : ProdEnv :=
  { file_load := .error "connection refused",
    resource_exists := fun _ _ => .error "connection refused",
    rewrite_file := .error "connection refused",
    gateway := .error "connection refused" }

/-- An app environment in which every effect raises. -/
def appEnvDown : AppEnv :=
  { file_load := .error "connection refused",
    dev_records := .error "connection refused",
    app_check := .error "connection refused",
    gateway := .error "connection refused" }

/-- A deployment environment in which every effect raises. -/
def deployEnvDown : DeployEnv :=
  { env_name := "eval",
    revisions_response := .error (),
    post_response := .error "connection refused" }

/-- A proxy environment in which every effect raises. -/
def proxyEnvDown : ProxyEnv :=
  { resource_exists := fun _ _ => .error "connection refused",
    gateway := .error "connection refused",
    deploy := deployEnvDown }

/-- A shared-flow environment in which every effect raises. -/
def sfEnvDown : SfEnv :=
  { resource_exists := fun _ _ => .error "connection refused",
    gateway := .error "connection refused",
    deploy := deployEnvDown }

/-- A small concrete run: one file in every category. -/
def exampleWorld : World :=
  { tsFiles := ["ts1.json"], kvmEnvFiles := ["kvm1.json"],
    kvmOrgFiles := ["kvm2.json"], devFiles := ["dev1.json"],
    appDirExists := true, appFiles := ["app1.json"],
    prodFiles := ["prod1.json"], proxyFiles := ["proxy1.zip"],
    sfFiles := ["sf1.zip"],
    tsEnv := fun _ _ => tsEnvDown, kvmEnvE := fun _ _ => kvmEnvDown,
    kvmOrgE := fun _ _ => kvmEnvDown, devEnv := fun _ _ => devEnvDown,
    appEnv := fun _ _ => appEnvDown, prodEnv := fun _ _ => prodEnvDown,
    proxyEnv := fun _ _ => proxyEnvDown, sfEnv := fun _ _ => sfEnvDown }

/-- A KVM environment whose destination already has the KVM: the
existence check answers `True`, so `migrate_kvm` returns the 409
conflict dict without touching the other effects. -/
def kvmConflictEnv : KvmEnv :=
  { resource_exists := fun _ _ => .ok true,
    file_load := .error "unreached",
    gateway_env := .error "unreached",
    gateway_org := .error "unreached" }

/-- A run containing exactly one env-level KVM that already exists at
the destination. -/
def worldConflict : World :=
  { tsFiles := [], kvmEnvFiles := ["kvm1.json"], kvmOrgFiles := [],
    devFiles := [], appDirExists := false, appFiles := [], prodFiles := [],
    proxyFiles := [], sfFiles := [],
    tsEnv := fun _ _ => tsEnvDown, kvmEnvE := fun _ _ => kvmConflictEnv,
    kvmOrgE := fun _ _ => kvmEnvDown, devEnv := fun _ _ => devEnvDown,
    appEnv := fun _ _ => appEnvDown, prodEnv := fun _ _ => prodEnvDown,
    proxyEnv := fun _ _ => proxyEnvDown, sfEnv := fun _ _ => sfEnvDown }

/-- An app environment whose app references `developerId = "dev-42"`
while the only developer record on disk has a different identifier. -/
def appEnvNoDev : AppEnv :=
  { file_load := .ok { name := "app1", developerId := "dev-42" },
    dev_records := .ok [.ok { developerId := some "dev-7",
                              email := some "seven@example.com" }],
    app_check := .error "unreached",
    gateway := .error "unreached" }

/-- A target-server environment whose gateway create call answers 201. -/
def tsEnv201 : TSEnv :=
  { resource_exists := fun _ _ => .ok false,
    file_load := .ok (),
    gateway := .ok (201, "created") }

/-- A target-server environment whose gateway create call answers 404. -/
def tsEnv404 : TSEnv :=
  { resource_exists := fun _ _ => .ok false,
    file_load := .ok (),
    gateway := .ok (404, "not found") }

/-- A deployment environment whose POST fails with a 500. -/
def deployFailEnv : DeployEnv :=
  { env_name := "eval",
    revisions_response := .error (),
    post_response := .ok (500, "deployment exploded") }

/-- A proxy environment where import succeeds but deployment fails. -/
def proxyEnvC5 : ProxyEnv :=
  { resource_exists := fun _ _ => .ok false,
    gateway := .ok (200, "imported"),
    deploy := deployFailEnv }

/-- A shared-flow environment where import succeeds but deployment
fails. -/
def sfEnvC5 : SfEnv :=
  { resource_exists := fun _ _ => .ok false,
    gateway := .ok (200, "imported"),
    deploy := deployFailEnv }

/-- A deployment environment whose revision listing answers 200 with
revisions 1, 2 and 5, and whose POST succeeds. -/
def deployEnvRevs : DeployEnv :=
  { env_name := "eval",
    revisions_response := .ok (200, ["1", "2", "5"]),
    post_response := .ok (200, "deployed") }

/-- An attempt function that fails identically on every attempt. -/
def alwaysFail : Nat → MigResult := fun _ =>
  { resource_type := "targetserver", resource_name := "ts1.json",
    status_code := 503, success := false,
    message := "Migration failed: upstream unavailable" }

/-! ### Helper lemmas -/

/-- When every attempt fails, the retry loop runs its remaining fuel to
exhaustion and returns the final attempt's result, annotated. -/
theorem retryGo_allFail (func : Nat → MigResult)
    (hfail : ∀ n, (func n).success = false) :
    ∀ fuel attempt retries, 1 ≤ fuel → attempt + fuel = retries + 1 →
      retryGo func retries attempt fuel =
        (some (annotateRetries (func retries) retries), fuel) := by
  intro fuel
  induction fuel with
  | zero => intro _ _ h _; omega
  | succ k ih =>
    intro attempt retries _ hsum
    by_cases hk : k = 0
    · subst hk
      have hat : attempt = retries := by omega
      subst hat
      simp [retryGo, hfail attempt]
    · have hne : ¬ (attempt = retries) := by omega
      have hrec := ih (attempt + 1) retries (by omega) (by omega)
      simp [retryGo, hfail attempt, hne, hrec]

/-- On an always-failing attempt function with at least one allowed
attempt, `migrate_with_retry` returns the annotated last result and
performs exactly `retries` calls. -/
theorem migrate_with_retry_allFail (func : Nat → MigResult) (retries : Nat)
    (hfail : ∀ n, (func n).success = false) (hr : 1 ≤ retries) :
    migrate_with_retry func retries
        = some (annotateRetries (func retries) retries)
    ∧ migrate_with_retry_calls func retries = retries := by
  unfold migrate_with_retry migrate_with_retry_calls
  rw [retryGo_allFail func hfail retries 1 retries hr (by omega)]
  exact ⟨rfl, rfl⟩

/-- The general retry model at the default `retries = 3` agrees with
the unfolded `retry3` used in the `migrate_all` model. -/
theorem migrate_with_retry_three (func : Nat → MigResult) :
    migrate_with_retry func 3 = some (retry3 func) := by
  unfold migrate_with_retry retry3
  by_cases h1 : (func 1).success <;> by_cases h2 : (func 2).success <;>
    by_cases h3 : (func 3).success <;>
      simp [retryGo, h1, h2, h3]

/-- Annotating a result changes only its message, never its identity. -/
theorem annotateRetries_identity (r : MigResult) (k : Nat) :
    (annotateRetries r k).identity = r.identity := rfl

/-- Unfolding lemma: monadic bind on a successful `Except`. -/
theorem bind_ok_eq {α β : Type} (a : α) (f : α → Except String β) :
    (Except.ok a : Except String α) >>= f = f a := rfl

/-- Unfolding lemma: monadic bind on a failed `Except`. -/
theorem bind_error_eq {α β : Type} (e : String) (f : α → Except String β) :
    (Except.error e : Except String α) >>= f = Except.error e := rfl

/-- Unfolding lemma: `pure` on `Except`. -/
theorem pure_ok_eq {α : Type} (a : α) :
    (pure a : Except String α) = Except.ok a := rfl

/-- Every branch of `migrate_target_server` stamps the result with the
input file name and the `"targetserver"` type. -/
theorem migrate_target_server_identity (env : TSEnv) (name : String) :
    (migrate_target_server env name).identity = ("targetserver", name) := by
  unfold migrate_target_server migrate_target_server_body
  cases hx : env.resource_exists "targetserver" (pyReplace name ".json" "") with
  | error e => simp [MigResult.identity, errorResult, bind_ok_eq, bind_error_eq, pure_ok_eq]
  | ok b =>
    cases b <;> cases hf : env.file_load <;> cases hg : env.gateway <;>
      simp [MigResult.identity, errorResult, bind_ok_eq, bind_error_eq, pure_ok_eq]

/-- Every branch of `migrate_kvm` stamps the result with the input
file name and the `"kvm"` type. -/
theorem migrate_kvm_identity (env : KvmEnv) (name scope : String) :
    (migrate_kvm env name scope).identity = ("kvm", name) := by
  unfold migrate_kvm migrate_kvm_body
  cases hx : env.resource_exists "kvm" (pyReplace name ".json" "") with
  | error e =>
    simp [MigResult.identity, errorResult, bind_ok_eq, bind_error_eq,
      pure_ok_eq, hx]
  | ok b =>
    cases b
    · by_cases hs : scope = "env" <;>
        cases hf : env.file_load <;>
        cases hge : env.gateway_env <;> cases hgo : env.gateway_org <;>
        simp [MigResult.identity, errorResult, bind_ok_eq, bind_error_eq,
          pure_ok_eq, hs, hx, hf, hge, hgo]
    · simp [MigResult.identity, errorResult, bind_ok_eq, bind_error_eq,
        pure_ok_eq, hx]

/-- Every branch of `migrate_developer` stamps the result with the
input file name and the `"developer"` type. -/
theorem migrate_developer_identity (env : DevEnv) (name : String) :
    (migrate_developer env name).identity = ("developer", name) := by
  unfold migrate_developer migrate_developer_body
  cases hf : env.file_load with
  | error e =>
    simp [MigResult.identity, errorResult, bind_ok_eq, bind_error_eq,
      pure_ok_eq, hf]
  | ok email =>
    cases hx : env.resource_exists "developer" email with
    | error e =>
      simp [MigResult.identity, errorResult, bind_ok_eq, bind_error_eq,
        pure_ok_eq, hf, hx]
    | ok b =>
      cases b <;> cases hg : env.gateway <;>
        simp [MigResult.identity, errorResult, bind_ok_eq, bind_error_eq,
          pure_ok_eq, hf, hx, hg]

/-- Every branch of `migrate_product` stamps the result with the input
file name and the `"apiproduct"` type. -/
theorem migrate_product_identity (env : ProdEnv) (name : String) :
    (migrate_product env name).identity = ("apiproduct", name) := by
  unfold migrate_product migrate_product_body
  cases hf : env.file_load with
  | error e =>
    simp [MigResult.identity, errorResult, bind_ok_eq, bind_error_eq,
      pure_ok_eq, hf]
  | ok pname =>
    cases hx : env.resource_exists "apiproduct" pname with
    | error e =>
      simp [MigResult.identity, errorResult, bind_ok_eq, bind_error_eq,
        pure_ok_eq, hf, hx]
    | ok b =>
      cases b <;> cases hr : env.rewrite_file <;> cases hg : env.gateway <;>
        simp [MigResult.identity, errorResult, bind_ok_eq, bind_error_eq,
          pure_ok_eq, hf, hx, hr, hg]

/-- Every branch of `migrate_app` stamps the result with the input
file name and the `"app"` type. -/
theorem migrate_app_identity (env : AppEnv) (name : String) :
    (migrate_app env name).identity = ("app", name) := by
  unfold migrate_app migrate_app_body
  cases hf : env.file_load with
  | error e =>
    simp [MigResult.identity, errorResult, bind_ok_eq, bind_error_eq,
      pure_ok_eq, hf]
  | ok data =>
    cases hd : env.dev_records with
    | error e =>
      simp [MigResult.identity, errorResult, bind_ok_eq, bind_error_eq,
        pure_ok_eq, hf, hd]
    | ok recs =>
      cases hs : scanDevs data.developerId recs with
      | error e =>
        simp [MigResult.identity, errorResult, bind_ok_eq, bind_error_eq,
          pure_ok_eq, hf, hd, hs]
      | ok em =>
        by_cases he : emailTruthy em
        · cases hc : env.app_check with
          | error e =>
            simp [MigResult.identity, errorResult, bind_ok_eq, bind_error_eq,
              pure_ok_eq, hf, hd, hs, hc, he]
          | ok st =>
            by_cases h200 : st = 200 <;> cases hg : env.gateway <;>
              simp [MigResult.identity, errorResult, bind_ok_eq, bind_error_eq,
                pure_ok_eq, hf, hd, hs, hc, he, h200, hg]
        · simp [MigResult.identity, errorResult, bind_ok_eq, bind_error_eq,
            pure_ok_eq, hf, hd, hs, he]

/-- `attachDeployment` changes only the message and deployment status,
never the identity. -/
theorem attachDeployment_identity (r d : MigResult) :
    (attachDeployment r d).identity = r.identity := by
  unfold attachDeployment
  by_cases h : d.success <;> simp [MigResult.identity, h]

/-- `attachDeployment` keeps the resource type. -/
theorem attachDeployment_type (r d : MigResult) :
    (attachDeployment r d).resource_type = r.resource_type := by
  unfold attachDeployment
  by_cases h : d.success <;> simp [h]

/-- `attachDeployment` keeps the resource name. -/
theorem attachDeployment_name (r d : MigResult) :
    (attachDeployment r d).resource_name = r.resource_name := by
  unfold attachDeployment
  by_cases h : d.success <;> simp [h]

/-- Every branch of `migrate_proxy` stamps the result with the input
proxy name and the `"proxy"` type. -/
theorem migrate_proxy_identity (env : ProxyEnv) (name : String) (dep : Bool) :
    (migrate_proxy env name dep).identity = ("proxy", name) := by
  unfold migrate_proxy migrate_proxy_body
  cases hx : env.resource_exists "proxy" name with
  | error e =>
    simp [MigResult.identity, errorResult, bind_ok_eq, bind_error_eq,
      pure_ok_eq, hx]
  | ok b =>
    cases b with
    | true =>
      simp [MigResult.identity, errorResult, bind_ok_eq, bind_error_eq,
        pure_ok_eq, hx]
    | false =>
      cases hg : env.gateway with
      | error e =>
        simp [MigResult.identity, errorResult, bind_ok_eq, bind_error_eq,
          pure_ok_eq, hx, hg]
      | ok p =>
        simp only [bind_ok_eq, bind_error_eq, pure_ok_eq, hx, hg]
        split_ifs <;>
          simp [MigResult.identity, attachDeployment_type, attachDeployment_name]

/-- Every branch of `migrate_sharedflow` stamps the result with the
input shared-flow name and the `"sharedflow"` type. -/
theorem migrate_sharedflow_identity (env : SfEnv) (name : String) (dep : Bool) :
    (migrate_sharedflow env name dep).identity = ("sharedflow", name) := by
  unfold migrate_sharedflow migrate_sharedflow_body
  cases hx : env.resource_exists "sharedflow" name with
  | error e =>
    simp [MigResult.identity, errorResult, bind_ok_eq, bind_error_eq,
      pure_ok_eq, hx]
  | ok b =>
    cases b with
    | true =>
      simp [MigResult.identity, errorResult, bind_ok_eq, bind_error_eq,
        pure_ok_eq, hx]
    | false =>
      cases hg : env.gateway with
      | error e =>
        simp [MigResult.identity, errorResult, bind_ok_eq, bind_error_eq,
          pure_ok_eq, hx, hg]
      | ok p =>
        simp only [bind_ok_eq, bind_error_eq, pure_ok_eq, hx, hg]
        split_ifs <;>
          simp [MigResult.identity, attachDeployment_type, attachDeployment_name]

/-- The retry wrapper preserves the (attempt-independent) identity of
the attempt function's results. -/
theorem retry3_identity (func : Nat → MigResult) (ty name : String)
    (h : ∀ n, (func n).identity = (ty, name)) :
    (retry3 func).identity = (ty, name) := by
  unfold retry3
  by_cases h1 : (func 1).success <;> by_cases h2 : (func 2).success <;>
    by_cases h3 : (func 3).success <;>
      simp [h1, h2, h3, annotateRetries_identity, h 1, h 2, h 3]

/-- Mapping `identity` over a mapped task list reduces to mapping the
per-file identity. -/
theorem map_identity_block {α : Type} (l : List α) (g : α → MigResult)
    (idf : α → String × String) (h : ∀ f, (g f).identity = idf f) :
    (l.map g).map MigResult.identity = l.map idf := by
  induction l with
  | nil => rfl
  | cons x xs ih => simp [h x, ih]

/-- The gathered result list of `migrate_all`, projected to
identities, is exactly the submitted identity list, in order. -/
theorem migrate_all_identities (w : World) :
    (migrate_all w).2.map MigResult.identity = submittedIdentities w := by
  unfold migrate_all migrate_all_results submittedIdentities
  cases hA : w.appDirExists <;>
    simp only [Bool.false_eq_true, if_false, if_true, List.map_append,
      List.map_nil] <;>
    rw [map_identity_block _ _ _
        (fun f => retry3_identity _ _ _
          fun n => migrate_target_server_identity (w.tsEnv f n) f),
      map_identity_block _ _ _
        (fun f => retry3_identity _ _ _
          fun n => migrate_kvm_identity (w.kvmEnvE f n) f "env"),
      map_identity_block _ _ _
        (fun f => retry3_identity _ _ _
          fun n => migrate_kvm_identity (w.kvmOrgE f n) f "org"),
      map_identity_block _ _ _
        (fun f => retry3_identity _ _ _
          fun n => migrate_developer_identity (w.devEnv f n) f),
      map_identity_block _ _ _
        (fun f => retry3_identity _ _ _
          fun n => migrate_product_identity (w.prodEnv f n) f),
      map_identity_block _ _ _
        (fun f => retry3_identity _ _ _
          fun n => migrate_proxy_identity (w.proxyEnv f n) (pyReplace f ".zip" "") false),
      map_identity_block _ _ _
        (fun f => retry3_identity _ _ _
          fun n => migrate_sharedflow_identity (w.sfEnv f n) (pyReplace f ".zip" "") false)]
  rw [map_identity_block _ _ _
      (fun f => retry3_identity _ _ _
        fun n => migrate_app_identity (w.appEnv f n) f)]

/-- In a duplicate-free list, a member occurs exactly once. -/
theorem filter_length_one {α : Type} [DecidableEq α] :
    ∀ (l : List α) (a : α), l.Nodup → a ∈ l →
      (l.filter (fun x => x = a)).length = 1 := by
  intro l a hnd ha
  induction l with
  | nil => cases ha
  | cons x xs ih =>
    rcases List.nodup_cons.mp hnd with ⟨hx, hnd2⟩
    rcases List.mem_cons.mp ha with h | h
    · subst h
      have hz : (xs.filter (fun y => y = a)).length = 0 := by
        rw [List.length_eq_zero, List.filter_eq_nil_iff]
        intro y hy
        simp only [decide_eq_true_eq]
        exact fun he => hx (he ▸ hy)
      simp [List.filter_cons, hz]
    · have hxa : ¬ (x = a) := fun he => hx (he ▸ h)
      simp [List.filter_cons, hxa, ih hnd2 h]

/-- Claim C1: every run of `migrate_all` over a fixed set of
enumerated resource files returns exactly one result per submitted
resource identity: the details list has the same length as the
submitted identity list, its identities are exactly the submitted
ones in submission order, and (when the submitted identities are
distinct, as directory listings are) every identity appears exactly
once — no result is lost or duplicated. -/
theorem migrate_all_completeness (w : World) :
    (migrate_all w).2.length = (submittedIdentities w).length
  ∧ (migrate_all w).2.map MigResult.identity = submittedIdentities w
  ∧ ((submittedIdentities w).Nodup →
      ∀ id ∈ submittedIdentities w,
        (((migrate_all w).2.map MigResult.identity).filter
          (fun x => x = id)).length = 1) := by
  have hmap := migrate_all_identities w
  refine ⟨?_, hmap, ?_⟩
  · have := congrArg List.length hmap
    simpa using this
  · intro hnd id hid
    rw [hmap]
    exact filter_length_one _ _ hnd hid

/-! ### Claim theorems -/

/-- Claim C4: for every attempt function that fails on every attempt,
`migrate_with_retry` with `retries = N ≥ 1` (default 3) invokes the
attempt function exactly `N` times and returns the last failure result
with its message annotated with the retry-exhaustion suffix
`" (failed after N retries)"`. -/
theorem migrate_with_retry_exhaustion (func : Nat → MigResult) (retries : Nat)
    (hfail : ∀ n, (func n).success = false) (hr : 1 ≤ retries) :
    migrate_with_retry func retries
        = some (annotateRetries (func retries) retries)
  ∧ (annotateRetries (func retries) retries).message
        = (func retries).message
          ++ (" (failed after " ++ toString retries ++ " retries)")
  ∧ migrate_with_retry_calls func retries = retries := by
  have h := migrate_with_retry_allFail func retries hfail hr
  exact ⟨h.1, rfl, h.2⟩

/-- Claim C4 witness: `alwaysFail` under the default three retries. -/
theorem migrate_with_retry_exhaustion_witness :
    (∀ n, (alwaysFail n).success = false) ∧ 1 ≤ 3
  ∧ migrate_with_retry alwaysFail 3 = some (annotateRetries (alwaysFail 3) 3)
  ∧ migrate_with_retry_calls alwaysFail 3 = 3 := by
  have h := migrate_with_retry_exhaustion alwaysFail 3 (fun _ => rfl)
    (by decide)
  exact ⟨fun _ => rfl, by decide, h.1, h.2.2⟩

/-- Claim C2 counterexample: a 409 "already exists" conflict result is
*not* short-circuited by `migrate_with_retry`.  With an attempt
function that returns the conflict dict of `migrate_kvm` on a KVM that
already exists at the destination, the policy performs all three
attempts (not one) and returns the conflict result with the
retry-exhaustion annotation rather than the conflict result itself. -/
theorem conflict_short_circuit_counterexample :
    (migrate_kvm kvmConflictEnv "kvm1.json" "env").status_code = 409
  ∧ (migrate_kvm kvmConflictEnv "kvm1.json" "env").message
      = "KVM 'kvm1.json' already exists"
  ∧ migrate_with_retry_calls
      (fun _ => migrate_kvm kvmConflictEnv "kvm1.json" "env") 3 = 3
  ∧ migrate_with_retry_calls
      (fun _ => migrate_kvm kvmConflictEnv "kvm1.json" "env") 3 ≠ 1
  ∧ migrate_with_retry
      (fun _ => migrate_kvm kvmConflictEnv "kvm1.json" "env") 3
      ≠ some (migrate_kvm kvmConflictEnv "kvm1.json" "env") := by
  refine ⟨by decide, by decide, by decide, by decide, by decide⟩

/-- Claim C2 (amended): `migrate_with_retry` does not special-case
conflicts.  An attempt function that returns the same 409
AlreadyExists conflict result on every attempt is retried like any
other failure: it is invoked `retries` times and the conflict result
is returned with the retry-exhaustion annotation. -/
theorem conflict_retried_like_failure (r : MigResult) (retries : Nat)
    (_hstatus : r.status_code = 409) (hfail : r.success = false)
    (hr : 1 ≤ retries) :
    migrate_with_retry (fun _ => r) retries
        = some (annotateRetries r retries)
  ∧ migrate_with_retry_calls (fun _ => r) retries = retries :=
  migrate_with_retry_allFail (fun _ => r) retries (fun _ => hfail) hr

/-- Claim C2 witness: the amended behaviour at the concrete KVM
conflict result, with the default three retries. -/
theorem conflict_retried_like_failure_witness :
    (migrate_kvm kvmConflictEnv "kvm1.json" "env").status_code = 409
  ∧ (migrate_kvm kvmConflictEnv "kvm1.json" "env").success = false
  ∧ 1 ≤ 3
  ∧ migrate_with_retry
      (fun _ => migrate_kvm kvmConflictEnv "kvm1.json" "env") 3
      = some (annotateRetries
          (migrate_kvm kvmConflictEnv "kvm1.json" "env") 3) := by
  have h := conflict_retried_like_failure
    (migrate_kvm kvmConflictEnv "kvm1.json" "env") 3 (by decide) (by decide)
    (by decide)
  exact ⟨by decide, by decide, by decide, h.1⟩

/-- Claim C3 counterexample: the summary's `failed` count is computed
as `sum(not r["success"])`, which counts AlreadyExists conflicts as
failures.  In a run whose only resource is a KVM that already exists
(one 409 result), the code reports `failed = 1`, while the claim's
formula — count of results whose outcome is neither Success nor
Skipped/AlreadyExists — yields 0. -/
theorem summary_conflict_counterexample :
    (migrate_all worldConflict).1.failed = 1
  ∧ ((migrate_all worldConflict).2.countP
      (fun r => !r.success && !(r.status_code == 409))) = 0
  ∧ (migrate_all worldConflict).1.failed
      ≠ ((migrate_all worldConflict).2.countP
          (fun r => !r.success && !(r.status_code == 409))) := by
  refine ⟨by decide, by decide, by decide⟩

/-- A predicate's count and its complement's count partition a list. -/
theorem countP_split {α : Type} (p : α → Bool) :
    ∀ l : List α, l.countP p + l.countP (fun a => !p a) = l.length := by
  intro l
  induction l with
  | nil => rfl
  | cons x xs ih =>
    by_cases h : p x <;> simp [List.countP_cons, h] <;> omega

/-- Claim C3 (amended): the summary satisfies `total = len(results)`
and `succeeded = count(outcome == Success)`, but `failed` is the count
of *all* non-success results — `failed = total - succeeded` — so
conflict (AlreadyExists/Skipped) results are counted in `failed`. -/
theorem migrate_all_summary (w : World) :
    (migrate_all w).1.total = (migrate_all w).2.length
  ∧ (migrate_all w).1.success
      = ((migrate_all w).2.filter (fun r => r.success)).length
  ∧ (migrate_all w).1.failed
      = ((migrate_all w).2.filter (fun r => !r.success)).length
  ∧ (migrate_all w).1.success + (migrate_all w).1.failed
      = (migrate_all w).1.total := by
  refine ⟨rfl, ?_, ?_, ?_⟩
  · simp [migrate_all, List.countP_eq_length_filter]
  · simp [migrate_all, List.countP_eq_length_filter]
  · simp only [migrate_all]
    exact countP_split _ _

/-- Claim C1 witness: completeness evaluated on the concrete
`exampleWorld` run (one file per category, distinct identities). -/
theorem migrate_all_completeness_witness :
    (submittedIdentities exampleWorld).Nodup
  ∧ ("proxy", "proxy1") ∈ submittedIdentities exampleWorld
  ∧ (((migrate_all exampleWorld).2.map MigResult.identity).filter
      (fun x => x = ("proxy", "proxy1"))).length = 1 :=
  ⟨by decide, by decide,
    (migrate_all_completeness exampleWorld).2.2 (by decide)
      ("proxy", "proxy1") (by decide)⟩

/-- Claim C7 counterexample: `migrate_all` does not submit categories
in the resolver's order.  On a run with one file per category, the
distinct categories appear in submission order TargetServer, KVM,
Developer, App, APIProduct, Proxy, SharedFlow — not the
`get_migration_order` order, which puts SharedFlow and Proxy before
Developer and App. -/
theorem migration_order_counterexample :
    ((migrate_all exampleWorld).2.map MigResult.resource_type).dedup
      = ["targetserver", "kvm", "developer", "app", "apiproduct",
         "proxy", "sharedflow"]
  ∧ (get_migration_order []).map categoryResultType
      = ["targetserver", "kvm", "sharedflow", "proxy", "apiproduct",
         "developer", "app"]
  ∧ ((migrate_all exampleWorld).2.map MigResult.resource_type).dedup
      ≠ (get_migration_order []).map categoryResultType := by
  refine ⟨by decide, by decide, by decide⟩

/-- Mapping first components over a tagged task list yields the tag,
replicated. -/
theorem map_fst_pairs {α : Type} (l : List α) (ty : String)
    (idf : α → String × String) (h : ∀ a, (idf a).1 = ty) :
    (l.map idf).map Prod.fst = List.replicate l.length ty := by
  induction l with
  | nil => rfl
  | cons x xs ih => simp [List.replicate_succ, h x, ih]

/-- Claim C7 (amended): `get_migration_order` ignores its input and
always returns the fixed sequence `[target_servers, kvms,
shared_flows, proxies, api_products, developers, apps]`; the
orchestrator, however, never consults it: `migrate_all` submits its
tasks in its own hard-coded category order — TargetServer, env-level
KVM, org-level KVM, Developer, App (when the directory exists),
APIProduct, Proxy, SharedFlow — which differs from the resolver's
order. -/
theorem migration_category_order :
    (∀ deps, get_migration_order deps
        = ["target_servers", "kvms", "shared_flows", "proxies",
           "api_products", "developers", "apps"])
  ∧ ∀ w : World,
      (migrate_all w).2.map MigResult.resource_type
        = List.replicate w.tsFiles.length "targetserver"
          ++ List.replicate w.kvmEnvFiles.length "kvm"
          ++ List.replicate w.kvmOrgFiles.length "kvm"
          ++ List.replicate w.devFiles.length "developer"
          ++ (if w.appDirExists
              then List.replicate w.appFiles.length "app" else [])
          ++ List.replicate w.prodFiles.length "apiproduct"
          ++ List.replicate w.proxyFiles.length "proxy"
          ++ List.replicate w.sfFiles.length "sharedflow" := by
  constructor
  · intro _
    rfl
  · intro w
    have hmap := migrate_all_identities w
    have hty : (migrate_all w).2.map MigResult.resource_type
        = ((migrate_all w).2.map MigResult.identity).map Prod.fst := by
      rw [List.map_map]
      rfl
    rw [hty, hmap]
    unfold submittedIdentities
    cases hA : w.appDirExists
    · simp only [Bool.false_eq_true, if_false, List.map_append,
        List.map_nil, List.nil_append]
      rw [map_fst_pairs w.tsFiles "targetserver"
            (fun f => ("targetserver", f)) (fun _ => rfl),
        map_fst_pairs w.kvmEnvFiles "kvm" (fun f => ("kvm", f))
          (fun _ => rfl),
        map_fst_pairs w.kvmOrgFiles "kvm" (fun f => ("kvm", f))
          (fun _ => rfl),
        map_fst_pairs w.devFiles "developer" (fun f => ("developer", f))
          (fun _ => rfl),
        map_fst_pairs w.prodFiles "apiproduct" (fun f => ("apiproduct", f))
          (fun _ => rfl),
        map_fst_pairs w.proxyFiles "proxy"
          (fun f => ("proxy", pyReplace f ".zip" "")) (fun _ => rfl),
        map_fst_pairs w.sfFiles "sharedflow"
          (fun f => ("sharedflow", pyReplace f ".zip" "")) (fun _ => rfl)]
    · simp only [if_true, List.map_append]
      rw [map_fst_pairs w.tsFiles "targetserver"
            (fun f => ("targetserver", f)) (fun _ => rfl),
        map_fst_pairs w.kvmEnvFiles "kvm" (fun f => ("kvm", f))
          (fun _ => rfl),
        map_fst_pairs w.kvmOrgFiles "kvm" (fun f => ("kvm", f))
          (fun _ => rfl),
        map_fst_pairs w.devFiles "developer" (fun f => ("developer", f))
          (fun _ => rfl),
        map_fst_pairs w.appFiles "app" (fun f => ("app", f))
          (fun _ => rfl),
        map_fst_pairs w.prodFiles "apiproduct" (fun f => ("apiproduct", f))
          (fun _ => rfl),
        map_fst_pairs w.proxyFiles "proxy"
          (fun f => ("proxy", pyReplace f ".zip" "")) (fun _ => rfl),
        map_fst_pairs w.sfFiles "sharedflow"
          (fun f => ("sharedflow", pyReplace f ".zip" "")) (fun _ => rfl)]

/-- Claim C5: when a proxy (or shared-flow) import succeeds (status
200), deployment is requested, and the deployment step fails, the
returned result still reports the migration as a success — `success`
stays `True` with status 200 — while the deployment failure detail is
appended to the message and `deployment_status` is recorded as
`"failed"`. -/
theorem deployment_failure_keeps_success
    (envP : ProxyEnv) (envS : SfEnv) (pname sname tP tS : String)
    (hPex : envP.resource_exists "proxy" pname = .ok false)
    (hPgw : envP.gateway = .ok (200, tP))
    (hPdep : (deploy_proxy envP.deploy pname).success = false)
    (hSex : envS.resource_exists "sharedflow" sname = .ok false)
    (hSgw : envS.gateway = .ok (200, tS))
    (hSdep : (deploy_sharedflow envS.deploy sname).success = false) :
    migrate_proxy envP pname true
      = { resource_type := "proxy", resource_name := pname,
          status_code := 200, success := true,
          message := "Proxy migrated successfully"
            ++ " but deployment failed: "
            ++ (deploy_proxy envP.deploy pname).message,
          deployment_status := some "failed" }
  ∧ migrate_sharedflow envS sname true
      = { resource_type := "sharedflow", resource_name := sname,
          status_code := 200, success := true,
          message := "Shared Flow migrated successfully"
            ++ " but deployment failed: "
            ++ (deploy_sharedflow envS.deploy sname).message,
          deployment_status := some "failed" } := by
  constructor
  · unfold migrate_proxy migrate_proxy_body
    simp [hPex, hPgw, bind_ok_eq, pure_ok_eq, attachDeployment, hPdep]
  · unfold migrate_sharedflow migrate_sharedflow_body
    simp [hSex, hSgw, bind_ok_eq, pure_ok_eq, attachDeployment, hSdep]

/-- Claim C5 witness: the concrete environments where import answers
200 and the deployment POST answers 500. -/
theorem deployment_failure_keeps_success_witness :
    (deploy_proxy proxyEnvC5.deploy "p1").success = false
  ∧ (deploy_sharedflow sfEnvC5.deploy "sf1").success = false
  ∧ (migrate_proxy proxyEnvC5 "p1" true).success = true
  ∧ (migrate_proxy proxyEnvC5 "p1" true).deployment_status = some "failed"
  ∧ (migrate_sharedflow sfEnvC5 "sf1" true).success = true
  ∧ (migrate_sharedflow sfEnvC5 "sf1" true).deployment_status
      = some "failed" := by
  have h := deployment_failure_keeps_success proxyEnvC5 sfEnvC5
    "p1" "sf1" "imported" "imported" rfl rfl (by decide) rfl rfl (by decide)
  refine ⟨by decide, by decide, ?_, ?_, ?_, ?_⟩
  · rw [h.1]
  · rw [h.1]
  · rw [h.2]
  · rw [h.2]

/-- Claim C6 counterexample: the missing-developer failure *is*
retried.  On an app whose `developerId` matches no developer record,
`migrate_app` does return the Failed result with status 400 and a
"Developer not found" message, but the retry policy performs all three
attempts on it (attempts = 3), not one. -/
theorem app_developer_not_found_counterexample :
    migrate_app appEnvNoDev "app1.json"
      = { resource_type := "app", resource_name := "app1.json",
          status_code := 400, success := false,
          message := "Developer not found for app app1" }
  ∧ migrate_with_retry_calls
      (fun _ => migrate_app appEnvNoDev "app1.json") 3 = 3
  ∧ migrate_with_retry_calls
      (fun _ => migrate_app appEnvNoDev "app1.json") 3 ≠ 1 := by
  refine ⟨by decide, by decide, by decide⟩

/-- Claim C6 (amended): for every app file whose `developerId` matches
no developer record on disk (or resolves only to an empty email),
`migrate_app` returns a Failed result with status code 400 and the
message "Developer not found for app ..." — but this
missing-prerequisite failure is retried by the retry policy like any
other failure: under the default policy the attempt function runs
three times and the 400 result is returned with the retry-exhaustion
annotation. -/
theorem app_developer_not_found (env : AppEnv) (fname : String)
    (data : AppData) (recs : List (Except String DevRecord))
    (em : Option String)
    (hfile : env.file_load = .ok data)
    (hrecs : env.dev_records = .ok recs)
    (hscan : scanDevs data.developerId recs = .ok em)
    (hmiss : emailTruthy em = false) :
    migrate_app env fname
      = { resource_type := "app", resource_name := fname,
          status_code := 400, success := false,
          message := "Developer not found for app " ++ data.name }
  ∧ migrate_with_retry (fun _ => migrate_app env fname) 3
      = some (annotateRetries (migrate_app env fname) 3)
  ∧ migrate_with_retry_calls (fun _ => migrate_app env fname) 3 = 3 := by
  have hres : migrate_app env fname
      = { resource_type := "app", resource_name := fname,
          status_code := 400, success := false,
          message := "Developer not found for app " ++ data.name } := by
    unfold migrate_app migrate_app_body
    simp [hfile, hrecs, hscan, bind_ok_eq, pure_ok_eq, hmiss]
  have hall := migrate_with_retry_allFail (fun _ => migrate_app env fname)
    3 (fun _ => by rw [hres]) (by omega)
  exact ⟨hres, hall.1, hall.2⟩

/-- Claim C6 witness: the amended behaviour at the concrete
environment whose only developer record has a different identifier. -/
theorem app_developer_not_found_witness :
    appEnvNoDev.file_load = .ok { name := "app1", developerId := "dev-42" }
  ∧ scanDevs "dev-42"
      [.ok { developerId := some "dev-7",
             email := some "seven@example.com" }] = Except.ok none
  ∧ (migrate_app appEnvNoDev "app1.json").status_code = 400
  ∧ migrate_with_retry_calls
      (fun _ => migrate_app appEnvNoDev "app1.json") 3 = 3 := by
  have h := app_developer_not_found appEnvNoDev "app1.json"
    { name := "app1", developerId := "dev-42" }
    [.ok { developerId := some "dev-7", email := some "seven@example.com" }]
    none rfl rfl rfl (by decide)
  refine ⟨rfl, rfl, ?_, h.2.2⟩
  rw [h.1]

/-- Claim C8 counterexample: `migrate_target_server` classifies a
gateway create status of 201 as a *failure*, not a success — the
source tests `status_code == 200` only. -/
theorem target_server_201_counterexample :
    migrate_target_server tsEnv201 "ts1.json"
      = { resource_type := "targetserver", resource_name := "ts1.json",
          status_code := 201, success := false,
          message := "Migration failed: created" }
  ∧ (migrate_target_server tsEnv201 "ts1.json").success ≠ true := by
  refine ⟨by decide, by decide⟩

/-- Claim C8 (amended): for every target-server migration that passes
the existence check and whose file loads, the gateway create call is
classified as Success exactly when the returned status code is 200 —
any other status, including 201, yields a Failed result whose message
carries the response body. -/
theorem target_server_classification (env : TSEnv) (name : String)
    (status : Nat) (text : String)
    (hex : env.resource_exists "targetserver" (pyReplace name ".json" "")
      = .ok false)
    (hfile : env.file_load = .ok ())
    (hgw : env.gateway = .ok (status, text)) :
    migrate_target_server env name
      = { resource_type := "targetserver", resource_name := name,
          status_code := status, success := status == 200,
          message := if status == 200
            then "Target Server migrated successfully"
            else "Migration failed: " ++ text } := by
  unfold migrate_target_server migrate_target_server_body
  simp [hex, hfile, hgw, bind_ok_eq, pure_ok_eq]

/-- Claim C8 witness: a 404 create answer yields the Failed result
with the response body in the message. -/
theorem target_server_classification_witness :
    migrate_target_server tsEnv404 "ts1.json"
      = { resource_type := "targetserver", resource_name := "ts1.json",
          status_code := 404, success := false,
          message := "Migration failed: not found" } := by
  have h := target_server_classification tsEnv404 "ts1.json" 404 "not found"
    rfl rfl rfl
  simpa using h

/-- Claim C9: no per-resource migration function propagates an
exception: each one either returns its `try:` block's result, or —
when any step of the block raises `e` — returns the `errorResult`
fallback dict of its `except` clause, which carries status code 500,
`success = False`, and a message containing the exception text. -/
theorem migration_functions_contain_exceptions :
    (∀ (env : TSEnv) (name : String),
        (∃ r, migrate_target_server_body env name = .ok r
            ∧ migrate_target_server env name = r)
      ∨ (∃ e, migrate_target_server_body env name = .error e
            ∧ migrate_target_server env name
                = errorResult "targetserver" name e))
  ∧ (∀ (env : KvmEnv) (name scope : String),
        (∃ r, migrate_kvm_body env name scope = .ok r
            ∧ migrate_kvm env name scope = r)
      ∨ (∃ e, migrate_kvm_body env name scope = .error e
            ∧ migrate_kvm env name scope = errorResult "kvm" name e))
  ∧ (∀ (env : DevEnv) (name : String),
        (∃ r, migrate_developer_body env name = .ok r
            ∧ migrate_developer env name = r)
      ∨ (∃ e, migrate_developer_body env name = .error e
            ∧ migrate_developer env name = errorResult "developer" name e))
  ∧ (∀ (env : ProdEnv) (name : String),
        (∃ r, migrate_product_body env name = .ok r
            ∧ migrate_product env name = r)
      ∨ (∃ e, migrate_product_body env name = .error e
            ∧ migrate_product env name = errorResult "apiproduct" name e))
  ∧ (∀ (env : AppEnv) (name : String),
        (∃ r, migrate_app_body env name = .ok r
            ∧ migrate_app env name = r)
      ∨ (∃ e, migrate_app_body env name = .error e
            ∧ migrate_app env name = errorResult "app" name e))
  ∧ (∀ (env : ProxyEnv) (name : String) (dep : Bool),
        (∃ r, migrate_proxy_body env name dep = .ok r
            ∧ migrate_proxy env name dep = r)
      ∨ (∃ e, migrate_proxy_body env name dep = .error e
            ∧ migrate_proxy env name dep = errorResult "proxy" name e))
  ∧ (∀ (env : SfEnv) (name : String) (dep : Bool),
        (∃ r, migrate_sharedflow_body env name dep = .ok r
            ∧ migrate_sharedflow env name dep = r)
      ∨ (∃ e, migrate_sharedflow_body env name dep = .error e
            ∧ migrate_sharedflow env name dep
                = errorResult "sharedflow" name e))
  ∧ (∀ ty name e, (errorResult ty name e).status_code = 500
      ∧ (errorResult ty name e).success = false
      ∧ (errorResult ty name e).message = "Error: " ++ e) := by
  refine ⟨?_, ?_, ?_, ?_, ?_, ?_, ?_, fun ty name e => ⟨rfl, rfl, rfl⟩⟩
  · intro env name
    cases h : migrate_target_server_body env name with
    | ok r => exact .inl ⟨r, rfl, by simp [migrate_target_server, h]⟩
    | error e => exact .inr ⟨e, rfl, by simp [migrate_target_server, h]⟩
  · intro env name scope
    cases h : migrate_kvm_body env name scope with
    | ok r => exact .inl ⟨r, rfl, by simp [migrate_kvm, h]⟩
    | error e => exact .inr ⟨e, rfl, by simp [migrate_kvm, h]⟩
  · intro env name
    cases h : migrate_developer_body env name with
    | ok r => exact .inl ⟨r, rfl, by simp [migrate_developer, h]⟩
    | error e => exact .inr ⟨e, rfl, by simp [migrate_developer, h]⟩
  · intro env name
    cases h : migrate_product_body env name with
    | ok r => exact .inl ⟨r, rfl, by simp [migrate_product, h]⟩
    | error e => exact .inr ⟨e, rfl, by simp [migrate_product, h]⟩
  · intro env name
    cases h : migrate_app_body env name with
    | ok r => exact .inl ⟨r, rfl, by simp [migrate_app, h]⟩
    | error e => exact .inr ⟨e, rfl, by simp [migrate_app, h]⟩
  · intro env name dep
    cases h : migrate_proxy_body env name dep with
    | ok r => exact .inl ⟨r, rfl, by simp [migrate_proxy, h]⟩
    | error e => exact .inr ⟨e, rfl, by simp [migrate_proxy, h]⟩
  · intro env name dep
    cases h : migrate_sharedflow_body env name dep with
    | ok r => exact .inl ⟨r, rfl, by simp [migrate_sharedflow, h]⟩
    | error e => exact .inr ⟨e, rfl, by simp [migrate_sharedflow, h]⟩

/-- Claim C10: `deploy_proxy` and `deploy_sharedflow` treat the
revision argument `"1"` — which is also the default — as unspecified:
instead of deploying revision 1 as given, they deploy the revision
resolved by `_get_latest_revision`, which is the highest integer
revision whenever the listing answers 200 and parses, and `"1"` only
as a fallback when the listing raises or is non-200.  Any explicit
revision other than `"1"` is deployed as given. -/
theorem deploy_revision_one_resolved (env : DeployEnv)
    (pname sname rev text : String) (status : Nat)
    (revs : List String) (m : Int) :
    (rev ≠ "1" → env.post_response = .ok (status, text) →
        (deploy_proxy env pname rev).resource_name
            = pname ++ " (rev " ++ rev ++ ")"
      ∧ (deploy_sharedflow env sname rev).resource_name
            = sname ++ " (rev " ++ rev ++ ")")
  ∧ (env.post_response = .ok (status, text) →
        (deploy_proxy env pname "1").resource_name
            = pname ++ " (rev " ++ get_latest_revision env ++ ")"
      ∧ (deploy_sharedflow env sname "1").resource_name
            = sname ++ " (rev " ++ get_latest_revision env ++ ")")
  ∧ (env.revisions_response = .ok (200, revs) →
      maxRevision revs = some m →
        get_latest_revision env = toString m)
  ∧ (env.revisions_response = .error () →
        get_latest_revision env = "1")
  ∧ (∀ st rv, env.revisions_response = .ok (st, rv) → st ≠ 200 →
        get_latest_revision env = "1") := by
  refine ⟨?_, ?_, ?_, ?_, ?_⟩
  · intro hrev hpost
    constructor <;>
      simp [deploy_proxy, deploy_sharedflow, deployRun, hrev, hpost]
  · intro hpost
    constructor <;>
      simp [deploy_proxy, deploy_sharedflow, deployRun, hpost]
  · intro hlist hmax
    simp [get_latest_revision, hlist, hmax]
  · intro hlist
    simp [get_latest_revision, hlist]
  · intro st rv hlist hst
    simp [get_latest_revision, hlist, hst]

/-- Claim C10 witness: with revisions 1, 2, 5 listed, an explicit
request to deploy revision `"1"` deploys revision 5, while revision
`"2"` is deployed as given. -/
theorem deploy_revision_one_resolved_witness :
    get_latest_revision deployEnvRevs = "5"
  ∧ (deploy_proxy deployEnvRevs "p1" "1").resource_name = "p1 (rev 5)"
  ∧ (deploy_sharedflow deployEnvRevs "sf1" "1").resource_name
      = "sf1 (rev 5)"
  ∧ (deploy_proxy deployEnvRevs "p1" "2").resource_name
      = "p1 (rev 2)" := by
  have h := deploy_revision_one_resolved deployEnvRevs "p1" "sf1" "2"
    "deployed" 200 ["1", "2", "5"] 5
  have h5 : get_latest_revision deployEnvRevs = "5" := by decide
  refine ⟨h5, ?_, ?_, ?_⟩
  · rw [(h.2.1 rfl).1, h5]
    decide
  · rw [(h.2.1 rfl).2, h5]
    decide
  · rw [(h.1 (by decide) rfl).1]
    decide

end MigrationX
